import Mathlib

/-!
A verification development for the GBDebugger repository: a shallow
embedding, in Lean, of the debugger's state model (CPU snapshot, memory
snapshot, memory-region table), its coordinator (`GBDebugger`), and the
control panel state machine (`ControlPanel`), together with theorems about
the properties the specification states for them.

Machine integers of the C++ source (`uint8_t`, `uint16_t`, `uint64_t`,
`int`, `size_t`) are modelled as `Nat` (or `Int` for `int`), with
width bounds appearing as explicit hypotheses or `% 65536` reductions
where the C++ types impose them.  `float` color channels and speed
multipliers are modelled as `Rat`; the source only ever stores and
compares these constants, never computes with them.  Raw pointers
(`const uint8_t*`) are modelled as `Option (Nat → Nat)`: `none` is the
null pointer, `some b` a readable buffer whose byte at offset `i` is
`b i`.  ImGui/SDL calls are external collaborators: rendering functions
are modelled as emitting a list of the draw items the source produces,
and input-dependent UI mutations (button clicks, combo selections) take
the frame's input as an explicit argument.
-/

namespace GBDebug

/-- Color structure for memory region visualization (DebuggerTypes.h).
Four normalized float channels, modelled as rationals. -/
structure Color where
  r : Rat
  g : Rat
  b : Rat
  a : Rat
deriving DecidableEq, Inhabited

/-- Memory region structure defining GameBoy memory map segments
(DebuggerTypes.h / GBDebugger.h).  The C++ field `end` is a Lean keyword,
so it is embedded as `endAddr`. -/
structure MemoryRegion where
  name : String
  start : Nat
  endAddr : Nat
  color : Color
deriving DecidableEq, Inhabited

/-- GameBoy memory map regions (12 distinct regions), exactly as listed in
DebuggerTypes.h lines 96-109 (identical table in GBDebugger.h lines 87-100). -/
def MEMORY_REGIONS : List MemoryRegion := [
  ⟨"ROM Bank 0",      0x0000, 0x3FFF, ⟨0.8, 0.8, 1.0, 1.0⟩⟩,
  ⟨"ROM Bank N",      0x4000, 0x7FFF, ⟨0.7, 0.7, 1.0, 1.0⟩⟩,
  ⟨"VRAM",            0x8000, 0x9FFF, ⟨1.0, 0.8, 0.8, 1.0⟩⟩,
  ⟨"External RAM",    0xA000, 0xBFFF, ⟨0.8, 1.0, 0.8, 1.0⟩⟩,
  ⟨"WRAM Bank 0",     0xC000, 0xCFFF, ⟨1.0, 1.0, 0.8, 1.0⟩⟩,
  ⟨"WRAM Bank N",     0xD000, 0xDFFF, ⟨1.0, 0.9, 0.7, 1.0⟩⟩,
  ⟨"Echo RAM",        0xE000, 0xFDFF, ⟨0.6, 0.6, 0.6, 1.0⟩⟩,
  ⟨"OAM",             0xFE00, 0xFE9F, ⟨1.0, 0.8, 1.0, 1.0⟩⟩,
  ⟨"Unusable",        0xFEA0, 0xFEFF, ⟨0.5, 0.5, 0.5, 1.0⟩⟩,
  ⟨"I/O Registers",   0xFF00, 0xFF7F, ⟨0.8, 1.0, 1.0, 1.0⟩⟩,
  ⟨"HRAM",            0xFF80, 0xFFFE, ⟨1.0, 1.0, 0.6, 1.0⟩⟩,
  ⟨"IE Register",     0xFFFF, 0xFFFF, ⟨1.0, 0.6, 0.6, 1.0⟩⟩]

/-- `MEMORY_REGIONS_COUNT` from DebuggerTypes.h
(`sizeof(MEMORY_REGIONS) / sizeof(MEMORY_REGIONS[0])`). -/
def MEMORY_REGIONS_COUNT : Nat := MEMORY_REGIONS.length

/-- CPU state structure containing all register values and flags
(DebuggerTypes.h / GBDebugger.h).  `cycle` is a `uint64_t`, the register
pairs are `uint16_t`; both are embedded as `Nat`. -/
structure CPUState where
  cycle : Nat
  pc : Nat
  sp : Nat
  af : Nat
  bc : Nat
  de : Nat
  hl : Nat
  ime : Bool

/-- The `CPUState` default constructor (DebuggerTypes.h line 29). -/
def CPUState.init : CPUState := ⟨0, 0, 0, 0, 0, 0, 0, false⟩

/-- Zero flag (bit 7 of F): `(af & 0x80) != 0`. -/
def CPUState.GetZFlag (c : CPUState) : Bool := (c.af &&& 0x80) != 0

/-- Subtraction flag (bit 6 of F): `(af & 0x40) != 0`. -/
def CPUState.GetNFlag (c : CPUState) : Bool := (c.af &&& 0x40) != 0

/-- Half-carry flag (bit 5 of F): `(af & 0x20) != 0`. -/
def CPUState.GetHFlag (c : CPUState) : Bool := (c.af &&& 0x20) != 0

/-- Carry flag (bit 4 of F): `(af & 0x10) != 0`. -/
def CPUState.GetCFlag (c : CPUState) : Bool := (c.af &&& 0x10) != 0

/-- `GetA`: `(af >> 8) & 0xFF`. -/
def CPUState.GetA (c : CPUState) : Nat := (c.af >>> 8) &&& 0xFF

/-- `GetF`: `af & 0xFF`. -/
def CPUState.GetF (c : CPUState) : Nat := c.af &&& 0xFF

/-- `GetB`: `(bc >> 8) & 0xFF`. -/
def CPUState.GetB (c : CPUState) : Nat := (c.bc >>> 8) &&& 0xFF

/-- `GetC`: `bc & 0xFF`. -/
def CPUState.GetC (c : CPUState) : Nat := c.bc &&& 0xFF

/-- `GetD`: `(de >> 8) & 0xFF`. -/
def CPUState.GetD (c : CPUState) : Nat := (c.de >>> 8) &&& 0xFF

/-- `GetE`: `de & 0xFF`. -/
def CPUState.GetE (c : CPUState) : Nat := c.de &&& 0xFF

/-- `GetH`: `(hl >> 8) & 0xFF`. -/
def CPUState.GetH (c : CPUState) : Nat := (c.hl >>> 8) &&& 0xFF

/-- `GetL`: `hl & 0xFF`. -/
def CPUState.GetL (c : CPUState) : Nat := c.hl &&& 0xFF

/-- Memory state structure containing the full 64KB GameBoy address space
(DebuggerTypes.h / GBDebugger.h).  The `std::array<uint8_t, 65536>` is
embedded as a total function on byte offsets; `Read` takes a `uint16_t`
address, embedded as reduction modulo 65536. -/
structure MemoryState where
  buffer : Nat → Nat
  is_valid : Bool

/-- The `MemoryState` constructor: invalid, with all bytes zero. -/
def MemoryState.init : MemoryState := ⟨fun _ => 0, false⟩

/-- `MemoryState::Read(uint16_t address)`: `buffer[address]`. -/
def MemoryState.Read (m : MemoryState) (address : Nat) : Nat :=
  m.buffer (address % 65536)

/-- The observable state of a `GBDebugger` instance (GBDebugger.cpp).
The SDL window, GL context and ImGui context are external resources; the
flags tracking them (`is_open_`, `sdl_initialized_`, `should_close_`) are
embedded directly. -/
structure GBDebugger where
  cpu_state : CPUState
  memory_state : MemoryState
  is_open : Bool
  sdl_initialized : Bool
  should_close : Bool

/-- The `GBDebugger` constructor (GBDebugger.cpp lines 17-32): closed, no
SDL, CPU state zeroed, memory state default-constructed (invalid, zeroed). -/
def GBDebugger.init : GBDebugger :=
  ⟨CPUState.init, MemoryState.init, false, false, false⟩

/-- `GBDebugger::Open()` (GBDebugger.cpp lines 38-64).  Returns `(result,
new state)`.  Idempotent when already open.  Creating the ImGui context is
an external effect whose success is the parameter `ctx_ok`; on success the
debugger becomes open. -/
def GBDebugger.Open (s : GBDebugger) (ctx_ok : Bool) : Bool × GBDebugger :=
  if s.is_open then (true, s)
  else if !ctx_ok then (false, s)
  else (true, { s with is_open := true })

/-- `GBDebugger::Close()` (GBDebugger.cpp lines 66-94).  No-op when not
open; otherwise tears down the SDL backend (if initialized) and the ImGui
context, and clears `is_open_` and `should_close_`. -/
def GBDebugger.Close (s : GBDebugger) : GBDebugger :=
  if !s.is_open then s
  else { s with sdl_initialized := false, is_open := false, should_close := false }

/-- `GBDebugger::IsOpen()` (GBDebugger.cpp lines 96-98). -/
def GBDebugger.IsOpen (s : GBDebugger) : Bool := s.is_open

/-- `GBDebugger::InitSDL()` (GBDebugger.cpp lines 100-156).  Opens first if
needed; idempotent when already initialized.  Window and GL-context
creation are external effects whose success is given by `window_ok` and
`glctx_ok`. -/
def GBDebugger.InitSDL (s : GBDebugger) (ctx_ok window_ok glctx_ok : Bool) :
    Bool × GBDebugger :=
  let (ok, s1) := if !s.is_open then s.Open ctx_ok else (true, s)
  if !ok then (false, s1)
  else if s1.sdl_initialized then (true, s1)
  else if !window_ok then (false, s1)
  else if !glctx_ok then (false, s1)
  else (true, { s1 with sdl_initialized := true, should_close := false })

/-- `GBDebugger::ProcessSDLEvent(SDL_Event*)` (GBDebugger.cpp lines
158-173).  `event_present` models a non-null event pointer;
`is_close_event` models a close event for this debugger's window. -/
def GBDebugger.ProcessSDLEvent (s : GBDebugger)
    (event_present is_close_event : Bool) : GBDebugger :=
  if !s.sdl_initialized || !event_present then s
  else if is_close_event then { s with should_close := true }
  else s

/-- `GBDebugger::ShouldClose()` (GBDebugger.cpp lines 213-215). -/
def GBDebugger.ShouldClose (s : GBDebugger) : Bool := s.should_close

/-- `GBDebugger::UpdateCPU(...)` (GBDebugger.cpp lines 217-234): stores the
snapshot wholesale, whether or not the debugger is open. -/
def GBDebugger.UpdateCPU (s : GBDebugger)
    (cycle pc sp af bc de hl : Nat) (ime : Bool) : GBDebugger :=
  { s with cpu_state := ⟨cycle, pc, sp, af, bc, de, hl, ime⟩ }

/-- `GBDebugger::UpdateMemory(const uint8_t* buffer, size_t size)`
(GBDebugger.cpp lines 236-253).  Null buffer or `size != 65536` fail with
the state untouched; otherwise the 65536-byte `memcpy` replaces the
snapshot and sets the validity flag. -/
def GBDebugger.UpdateMemory (s : GBDebugger)
    (buffer : Option (Nat → Nat)) (size : Nat) : Bool × GBDebugger :=
  match buffer with
  | none => (false, s)
  | some b =>
    if size ≠ 65536 then (false, s)
    else (true, { s with memory_state := ⟨fun i => b i, true⟩ })

/-- The panels whose render helpers `GBDebugger::Render` can dispatch to,
plus the control panel of the panel subsystem (never dispatched by
`GBDebugger::Render`; listed so that its absence is expressible). -/
inductive PanelId where
  | cpuStatePanel
  | flagsPanel
  | memoryViewerPanel
  | controlPanel
deriving DecidableEq

/-- One observable step of `GBDebugger::Render` (GBDebugger.cpp lines
255-281): an ImGui frame boundary or a dispatch to a panel's render
helper. -/
inductive RenderCall where
  | newFrame
  | panel (p : PanelId)
  | renderFrame
deriving DecidableEq

/-- `GBDebugger::Render()` (GBDebugger.cpp lines 255-281), as the sequence
of frame calls and panel dispatches it performs.  Not open: nothing.  SDL
branch: the three panel helpers.  Headless branch: `ImGui::NewFrame()`,
the three panel helpers, `ImGui::Render()`. -/
def GBDebugger.Render (s : GBDebugger) : List RenderCall :=
  if !s.is_open then []
  else if s.sdl_initialized then
    [.panel .cpuStatePanel, .panel .flagsPanel, .panel .memoryViewerPanel]
  else
    [.newFrame, .panel .cpuStatePanel, .panel .flagsPanel,
     .panel .memoryViewerPanel, .renderFrame]

/-- The panels dispatched by one `Render()` call, in dispatch order. -/
def panelsDispatched (s : GBDebugger) : List PanelId :=
  s.Render.filterMap fun c =>
    match c with
    | .panel p => some p
    | _ => none

/-- The ASCII rendering of one byte in the memory viewer (GBDebugger.cpp
lines 411-416): printable bytes `[32,126]` map to themselves, all others
to `'.'` (46). -/
def asciiOf (byte : Nat) : Nat :=
  if 32 ≤ byte ∧ byte ≤ 126 then byte else 46

/-- The 16 raw bytes of the viewer row starting at `addr` (GBDebugger.cpp
lines 404-409): `memory_state_.Read(addr + i)` for `i = 0..15`. -/
def MemoryState.rowBytes (m : MemoryState) (addr : Nat) : List Nat :=
  (List.range 16).map fun i => m.Read (addr + i)

/-- The ASCII line of the viewer row starting at `addr` (GBDebugger.cpp
lines 411-416). -/
def MemoryState.rowAscii (m : MemoryState) (addr : Nat) : List Nat :=
  (m.rowBytes addr).map asciiOf

/-- The region-boundary scan of the memory viewer (GBDebugger.cpp lines
377-394): the first region index whose start address equals `addr`, if
any (the C++ loop breaks at the first match). -/
def regionIndexAt (addr : Nat) : Option Nat :=
  (MEMORY_REGIONS.enum.find? fun p => p.2.start == addr).map Prod.fst

/-- One item emitted by `GBDebugger::RenderMemoryViewer` (GBDebugger.cpp
lines 359-429): the invalid-snapshot placeholder text, a region header
(identified by its index in `MEMORY_REGIONS`, which carries the displayed
name, address range and color), or a 16-byte row with its hex bytes and
ASCII line.  The purely visual `ImGui::Separator()` calls around a header
are part of the header item. -/
inductive MVItem where
  | placeholder
  | header (regionIndex : Nat)
  | row (addr : Nat) (bytes : List Nat) (ascii : List Nat)
deriving DecidableEq

/-- One iteration of the row loop of `GBDebugger::RenderMemoryViewer`
(GBDebugger.cpp lines 375-425): a region header first when some region
starts at this row's address, then the 16-byte row itself. -/
def viewerRowChunk (m : MemoryState) (addr : Nat) : List MVItem :=
  (match regionIndexAt addr with
   | some i => [MVItem.header i]
   | none => []) ++ [MVItem.row addr (m.rowBytes addr) (m.rowAscii addr)]

/-- `GBDebugger::RenderMemoryViewer()` (GBDebugger.cpp lines 359-429) as
the list of items it emits.  Invalid snapshot: a single placeholder, no
row iteration.  Otherwise the row loop runs over the 4096 row addresses
`0, 16, ..., 65520`. -/
def RenderMemoryViewer (m : MemoryState) : List MVItem :=
  if !m.is_valid then [.placeholder]
  else (List.range 4096).flatMap fun r => viewerRowChunk m (r * 16)

/-- The shape of a memory-viewer item: the item with the byte payload of
rows erased.  The emission structure (which headers appear, where, and in
what order) is a function of the shapes alone. -/
inductive MVShape where
  | placeholderS
  | headerS (i : Nat)
  | rowS (addr : Nat)
deriving DecidableEq

/-- Erase a row's byte payload, keeping the item's shape. -/
def MVItem.shape : MVItem → MVShape
  | .placeholder => .placeholderS
  | .header i => .headerS i
  | .row a _ _ => .rowS a

/-- The shapes of the items emitted by `RenderMemoryViewer`. -/
def mvShapes (m : MemoryState) : List MVShape :=
  (RenderMemoryViewer m).map MVItem.shape

/-- The shape of one row-loop iteration: a header shape when a region
starts at this row's address, then the row shape. -/
def chunkShape (addr : Nat) : List MVShape :=
  (match regionIndexAt addr with
   | some i => [MVShape.headerS i]
   | none => []) ++ [MVShape.rowS addr]

/-- The emission structure of the memory viewer on any valid snapshot:
independent of the snapshot's bytes. -/
def mvShapeList : List MVShape :=
  (List.range 4096).flatMap fun r => chunkShape (r * 16)

/-- The region hit of the row with row number `r` (row address `r * 16`):
the region index whose header the row loop emits before this row, if
any. -/
def rowHit (r : Nat) : Option Nat := regionIndexAt (r * 16)

/-- Extract the region index of a header shape. -/
def headerIndexOf : MVShape → Option Nat
  | .headerS i => some i
  | _ => none

/-- Check that in a shape list, every header of region `i` is immediately
followed by the row whose starting address is region `i`'s start address
(and is not the last item). -/
def headerAdjacencyOk : List MVShape → Bool
  | [] => true
  | .headerS i :: rest =>
    (match rest with
     | .rowS a :: _ => a == (MEMORY_REGIONS.getD i default).start
     | _ => false) && headerAdjacencyOk rest
  | _ :: rest => headerAdjacencyOk rest

/-- `ControlPanel::SPEED_COUNT` (ControlPanel.h line 55). -/
def SPEED_COUNT : Int := 7

/-- `ControlPanel::SPEED_1X_INDEX` (ControlPanel.h line 56). -/
def SPEED_1X_INDEX : Int := 3

/-- The state of a `ControlPanel` (ControlPanel.h lines 49-54).
`speed_index` is a C++ `int`, embedded as `Int`. -/
structure ControlPanel where
  visible : Bool
  running : Bool
  step_requested : Bool
  exit_requested : Bool
  speed_index : Int

/-- The `ControlPanel` constructor (ControlPanel.cpp lines 6-12): visible,
stopped, no pending step or exit request, speed at 1x. -/
def ControlPanel.init : ControlPanel := ⟨true, false, false, false, SPEED_1X_INDEX⟩

/-- The `multipliers` table of `ControlPanel::GetSpeedMultiplier`
(ControlPanel.cpp line 16): `{0.125f, 0.25f, 0.5f, 1.0f, 2.0f, 4.0f,
8.0f}`, as exact rationals. -/
def speedMultipliers : List Rat := [0.125, 0.25, 0.5, 1.0, 2.0, 4.0, 8.0]

/-- `ControlPanel::GetSpeedMultiplier()` (ControlPanel.cpp lines 14-18):
`multipliers[speed_index_]`, an unchecked array access.  The embedding
returns `none` exactly when the C++ access would be out of bounds. -/
def ControlPanel.GetSpeedMultiplier (p : ControlPanel) : Option Rat :=
  if 0 ≤ p.speed_index then speedMultipliers[p.speed_index.toNat]? else none

/-- `ControlPanel::CycleSpeedUp()` (ControlPanel.cpp lines 20-24). -/
def ControlPanel.CycleSpeedUp (p : ControlPanel) : ControlPanel :=
  if p.speed_index < SPEED_COUNT - 1 then { p with speed_index := p.speed_index + 1 }
  else p

/-- `ControlPanel::CycleSpeedDown()` (ControlPanel.cpp lines 26-30). -/
def ControlPanel.CycleSpeedDown (p : ControlPanel) : ControlPanel :=
  if 0 < p.speed_index then { p with speed_index := p.speed_index - 1 }
  else p

/-- `ControlPanel::SetSpeedIndex(int)` (ControlPanel.cpp lines 32-36):
stores the index only when `0 <= index < SPEED_COUNT`. -/
def ControlPanel.SetSpeedIndex (p : ControlPanel) (index : Int) : ControlPanel :=
  if 0 ≤ index ∧ index < SPEED_COUNT then { p with speed_index := index }
  else p

/-- `ControlPanel::SetRunning(bool)` (ControlPanel.h line 33). -/
def ControlPanel.SetRunning (p : ControlPanel) (b : Bool) : ControlPanel :=
  { p with running := b }

/-- `ControlPanel::ToggleRunning()` (ControlPanel.h line 34). -/
def ControlPanel.ToggleRunning (p : ControlPanel) : ControlPanel :=
  { p with running := !p.running }

/-- `ControlPanel::ClearStepRequest()` (ControlPanel.h line 37). -/
def ControlPanel.ClearStepRequest (p : ControlPanel) : ControlPanel :=
  { p with step_requested := false }

/-- `ControlPanel::IsExitRequested()` (ControlPanel.h line 39). -/
def ControlPanel.IsExitRequested (p : ControlPanel) : Bool := p.exit_requested

/-- `ControlPanel::SetVisible(bool)` (ControlPanel.h line 29). -/
def ControlPanel.SetVisible (p : ControlPanel) (b : Bool) : ControlPanel :=
  { p with visible := b }

/-- The user input one `ControlPanel::Render` frame reacts to: whether the
Run/Stop button was clicked, whether the Step button was clicked, which
speed entry (if any) was selected in the combo (the combo loop only offers
indices `0..6`), and whether the Exit button was clicked. -/
structure ControlRenderInput where
  runStopClicked : Bool
  stepClicked : Bool
  speedSelected : Option (Fin 7)
  exitClicked : Bool

/-- The Run/Stop button block of `ControlPanel::Render` (ControlPanel.cpp
lines 49-58): a click toggles `running_`. -/
def ControlPanel.renderRunStop (p : ControlPanel) (clicked : Bool) : ControlPanel :=
  if clicked then { p with running := !p.running } else p

/-- The Step button block of `ControlPanel::Render` (ControlPanel.cpp
lines 60-69): the button is disabled while `running_` is set (the value
after the Run/Stop block), so a click registers only when not running,
and sets `step_requested_`. -/
def ControlPanel.renderStepButton (p : ControlPanel) (clicked : Bool) : ControlPanel :=
  if clicked && !p.running then { p with step_requested := true } else p

/-- The speed combo block of `ControlPanel::Render` (ControlPanel.cpp
lines 71-87): selecting entry `i` of the 7-entry combo stores index `i`. -/
def ControlPanel.renderSpeedCombo (p : ControlPanel) (sel : Option (Fin 7)) : ControlPanel :=
  match sel with
  | some i => { p with speed_index := (i.val : Int) }
  | none => p

/-- The Exit button block of `ControlPanel::Render` (ControlPanel.cpp
lines 89-92): a click sets `exit_requested_`. -/
def ControlPanel.renderExitButton (p : ControlPanel) (clicked : Bool) : ControlPanel :=
  if clicked then { p with exit_requested := true } else p

/-- `ControlPanel::Render()` (ControlPanel.cpp lines 38-95) as a state
update under the frame's input.  Invisible: early return, no mutation.
Otherwise the four button blocks run in source order. -/
def ControlPanel.Render (p : ControlPanel) (inp : ControlRenderInput) : ControlPanel :=
  if !p.visible then p
  else ((((p.renderRunStop inp.runStopClicked).renderStepButton
    inp.stepClicked).renderSpeedCombo inp.speedSelected).renderExitButton inp.exitClicked)

/-- The operations of the `ControlPanel` public surface (ControlPanel.h
lines 26-47). -/
inductive ControlOp where
  | render (inp : ControlRenderInput)
  | setRunning (b : Bool)
  | toggleRunning
  | clearStepRequest
  | cycleSpeedUp
  | cycleSpeedDown
  | setSpeedIndex (index : Int)
  | setVisible (b : Bool)

/-- Apply one `ControlPanel` operation. -/
def ControlPanel.step (p : ControlPanel) : ControlOp → ControlPanel
  | .render inp => p.Render inp
  | .setRunning b => p.SetRunning b
  | .toggleRunning => p.ToggleRunning
  | .clearStepRequest => p.ClearStepRequest
  | .cycleSpeedUp => p.CycleSpeedUp
  | .cycleSpeedDown => p.CycleSpeedDown
  | .setSpeedIndex index => p.SetSpeedIndex index
  | .setVisible b => p.SetVisible b

/-- Apply a sequence of `ControlPanel` operations. -/
def ControlPanel.run (p : ControlPanel) (ops : List ControlOp) : ControlPanel :=
  ops.foldl ControlPanel.step p

/-- The operations of the `GBDebugger` public surface (GBDebugger.h /
GBDebugger.cpp).  External-effect outcomes (ImGui context, SDL window, GL
context creation; event contents) are constructor arguments. -/
inductive GBOp where
  | openCall (ctx_ok : Bool)
  | closeCall
  | updateCPU (cycle pc sp af bc de hl : Nat) (ime : Bool)
  | updateMemory (buffer : Option (Nat → Nat)) (size : Nat)
  | render
  | initSDL (ctx_ok window_ok glctx_ok : Bool)
  | processSDLEvent (event_present is_close_event : Bool)
  | beginFrame
  | endFrame

/-- Apply one `GBDebugger` operation to the debugger state.  `Render`,
`BeginFrame` and `EndFrame` only emit draw calls and never mutate the
embedded state (GBDebugger.cpp lines 175-207, 255-281). -/
def GBDebugger.step (s : GBDebugger) : GBOp → GBDebugger
  | .openCall ctx_ok => (s.Open ctx_ok).2
  | .closeCall => s.Close
  | .updateCPU cycle pc sp af bc de hl ime => s.UpdateCPU cycle pc sp af bc de hl ime
  | .updateMemory buffer size => (s.UpdateMemory buffer size).2
  | .render => s
  | .initSDL a b c => (s.InitSDL a b c).2
  | .processSDLEvent a b => s.ProcessSDLEvent a b
  | .beginFrame => s
  | .endFrame => s

/-- Apply a sequence of `GBDebugger` operations. -/
def GBDebugger.run (s : GBDebugger) (ops : List GBOp) : GBDebugger :=
  ops.foldl GBDebugger.step s

end GBDebug

namespace GBDebug

theorem viewerRowChunk_shape (m : MemoryState) (addr : Nat) :
    (viewerRowChunk m addr).map MVItem.shape = chunkShape addr := by
  unfold viewerRowChunk chunkShape
  cases regionIndexAt addr <;> simp [MVItem.shape]

theorem mvShapes_valid (buf : Nat → Nat) : mvShapes ⟨buf, true⟩ = mvShapeList := by
  unfold mvShapes RenderMemoryViewer mvShapeList
  simp only [Bool.not_true, Bool.false_eq_true, if_false]
  rw [List.map_flatMap]
  simp only [viewerRowChunk_shape]

theorem regionIndexAt_eq (addr : Nat) :
    regionIndexAt addr =
      if addr = 0x0000 then some 0 else if addr = 0x4000 then some 1
      else if addr = 0x8000 then some 2 else if addr = 0xA000 then some 3
      else if addr = 0xC000 then some 4 else if addr = 0xD000 then some 5
      else if addr = 0xE000 then some 6 else if addr = 0xFE00 then some 7
      else if addr = 0xFEA0 then some 8 else if addr = 0xFF00 then some 9
      else if addr = 0xFF80 then some 10 else if addr = 0xFFFF then some 11
      else none := by
  by_cases h0 : addr = 0x0000
  · subst h0; decide
  by_cases h1 : addr = 0x4000
  · subst h1; decide
  by_cases h2 : addr = 0x8000
  · subst h2; decide
  by_cases h3 : addr = 0xA000
  · subst h3; decide
  by_cases h4 : addr = 0xC000
  · subst h4; decide
  by_cases h5 : addr = 0xD000
  · subst h5; decide
  by_cases h6 : addr = 0xE000
  · subst h6; decide
  by_cases h7 : addr = 0xFE00
  · subst h7; decide
  by_cases h8 : addr = 0xFEA0
  · subst h8; decide
  by_cases h9 : addr = 0xFF00
  · subst h9; decide
  by_cases h10 : addr = 0xFF80
  · subst h10; decide
  by_cases h11 : addr = 0xFFFF
  · subst h11; decide
  rw [if_neg h0, if_neg h1, if_neg h2, if_neg h3, if_neg h4, if_neg h5, if_neg h6,
      if_neg h7, if_neg h8, if_neg h9, if_neg h10, if_neg h11]
  have hnone : MEMORY_REGIONS.enum.find? (fun p => p.2.start == addr) = none := by
    rw [List.find?_eq_none]
    intro x hx
    fin_cases hx <;> simp <;> omega
  unfold regionIndexAt
  rw [hnone]
  rfl

theorem regionIndexAt_start {addr i : Nat} (h : regionIndexAt addr = some i) :
    (MEMORY_REGIONS.getD i default).start = addr := by
  unfold regionIndexAt at h
  cases hf : MEMORY_REGIONS.enum.find? (fun p => p.2.start == addr) with
  | none => rw [hf] at h; simp at h
  | some x =>
    rw [hf] at h
    simp only [Option.map_some'] at h
    have hi : x.1 = i := Option.some_inj.mp h
    have hp : x.2.start = addr := by simpa using List.find?_some hf
    have hmem := List.mem_of_find?_eq_some hf
    rw [List.mem_enum_iff_getElem?] at hmem
    rw [List.getD_eq_getElem?_getD, ← hi, hmem]
    simpa using hp

theorem range'_split (s a b : Nat) :
    List.range' s (a + b) = List.range' s a ++ List.range' (s + a) b := by
  have h := List.range'_append s a b 1
  simp only [one_mul] at h
  rw [Nat.add_comm a b]
  exact h.symm

theorem range_4096_split :
    List.range 4096 =
      List.range' 0 1024 ++ (List.range' 1024 1024 ++ (List.range' 2048 512 ++
      (List.range' 2560 512 ++ (List.range' 3072 256 ++ (List.range' 3328 256 ++
      (List.range' 3584 480 ++ (List.range' 4064 10 ++ (List.range' 4074 6 ++
      (List.range' 4080 8 ++ List.range' 4088 8))))))))) := by
  rw [List.range_eq_range',
      show (4096 : Nat) = 1024 + (1024 + (512 + (512 + (256 + (256 + (480 + (10 + (6 + (8 + 8))))))))) from rfl]
  rw [range'_split, range'_split, range'_split, range'_split, range'_split,
      range'_split, range'_split, range'_split, range'_split, range'_split]

theorem filterMap_range'_none {β : Type} (h : Nat → Option β) :
    ∀ (len s : Nat), (∀ j, j < len → h (s + j) = none) →
      (List.range' s len).filterMap h = []
  | 0, _, _ => rfl
  | (n+1), s, hn => by
    rw [List.range'_succ]
    simp only [List.filterMap_cons]
    rw [show h s = none from by simpa using hn 0 (by omega)]
    exact filterMap_range'_none h n (s + 1) fun j hj => by
      have hx := hn (j + 1) (by omega)
      rwa [show s + (j + 1) = s + 1 + j from by omega] at hx

theorem filterMap_range'_segment {β : Type} (h : Nat → Option β) (s len : Nat) (v : β)
    (hh : h s = some v)
    (hn : ∀ j, j < len - 1 → h (s + 1 + j) = none)
    (hlen : 1 ≤ len) :
    (List.range' s len).filterMap h = [v] := by
  obtain ⟨len', rfl⟩ : ∃ l, len = l + 1 := ⟨len - 1, by omega⟩
  rw [List.range'_succ]
  simp only [List.filterMap_cons, hh]
  rw [filterMap_range'_none h len' (s + 1) fun j hj => hn j (by omega)]

theorem chunkShape_none {addr : Nat} (h : regionIndexAt addr = none) :
    chunkShape addr = [MVShape.rowS addr] := by
  simp [chunkShape, h]

theorem chunkShape_some {addr i : Nat} (h : regionIndexAt addr = some i) :
    chunkShape addr = [MVShape.headerS i, MVShape.rowS addr] := by
  simp [chunkShape, h]

theorem headerIndices_aux : ∀ l : List Nat,
    ((l.flatMap fun r => chunkShape (r * 16)).filterMap headerIndexOf)
      = l.filterMap rowHit
  | [] => rfl
  | r :: l => by
    rw [List.flatMap_cons, List.filterMap_append, headerIndices_aux l]
    cases h : regionIndexAt (r * 16) with
    | none =>
      rw [chunkShape_none h]
      simp [h, headerIndexOf, List.filterMap_cons, rowHit]
    | some i =>
      rw [chunkShape_some h]
      simp [h, headerIndexOf, List.filterMap_cons, rowHit]

theorem rowHit_none {r : Nat}
    (h : ¬(r = 0 ∨ r = 1024 ∨ r = 2048 ∨ r = 2560 ∨ r = 3072 ∨ r = 3328 ∨
           r = 3584 ∨ r = 4064 ∨ r = 4074 ∨ r = 4080 ∨ r = 4088)) :
    rowHit r = none := by
  simp only [rowHit]
  rw [regionIndexAt_eq]
  repeat rw [if_neg (by omega)]

set_option maxHeartbeats 1600000 in
theorem headerIndices_value :
    (List.range 4096).filterMap rowHit = [0, 1, 2, 3, 4, 5, 6, 7, 8, 9, 10] := by
  rw [range_4096_split]
  simp only [List.filterMap_append]
  rw [
      filterMap_range'_segment rowHit 0 1024 0 (by decide)
        (fun j hj => rowHit_none (by omega)) (by omega),
      filterMap_range'_segment rowHit 1024 1024 1 (by decide)
        (fun j hj => rowHit_none (by omega)) (by omega),
      filterMap_range'_segment rowHit 2048 512 2 (by decide)
        (fun j hj => rowHit_none (by omega)) (by omega),
      filterMap_range'_segment rowHit 2560 512 3 (by decide)
        (fun j hj => rowHit_none (by omega)) (by omega),
      filterMap_range'_segment rowHit 3072 256 4 (by decide)
        (fun j hj => rowHit_none (by omega)) (by omega),
      filterMap_range'_segment rowHit 3328 256 5 (by decide)
        (fun j hj => rowHit_none (by omega)) (by omega),
      filterMap_range'_segment rowHit 3584 480 6 (by decide)
        (fun j hj => rowHit_none (by omega)) (by omega),
      filterMap_range'_segment rowHit 4064 10 7 (by decide)
        (fun j hj => rowHit_none (by omega)) (by omega),
      filterMap_range'_segment rowHit 4074 6 8 (by decide)
        (fun j hj => rowHit_none (by omega)) (by omega),
      filterMap_range'_segment rowHit 4080 8 9 (by decide)
        (fun j hj => rowHit_none (by omega)) (by omega),
      filterMap_range'_segment rowHit 4088 8 10 (by decide)
        (fun j hj => rowHit_none (by omega)) (by omega)]
  rfl

theorem headerAdjacency_aux : ∀ l : List Nat,
    headerAdjacencyOk (l.flatMap fun r => chunkShape (r * 16)) = true
  | [] => rfl
  | r :: l => by
    have ih := headerAdjacency_aux l
    rw [List.flatMap_cons]
    cases h : regionIndexAt (r * 16) with
    | none =>
      rw [chunkShape_none h]
      simpa [headerAdjacencyOk] using ih
    | some i =>
      have hs := regionIndexAt_start h
      rw [chunkShape_some h]
      simp only [List.cons_append, List.nil_append, headerAdjacencyOk, hs]
      simpa [headerAdjacencyOk] using ih



theorem mvShapeList_headerIndices :
    mvShapeList.filterMap headerIndexOf = [0, 1, 2, 3, 4, 5, 6, 7, 8, 9, 10] := by
  unfold mvShapeList
  rw [headerIndices_aux, headerIndices_value]

theorem mvShapeList_adjacency : headerAdjacencyOk mvShapeList = true := by
  unfold mvShapeList
  exact headerAdjacency_aux (List.range 4096)

/-- Claim C1 (amended): rendering the Memory Viewer with a valid snapshot
emits region headers exactly for the regions whose start address is a row
start (a multiple of 16) — indices 0 through 10 of the Region Table — each
exactly once, in ascending address order, and each immediately before the
16-byte row whose starting address equals that region's start address.
The IE Register region (index 11, start 0xFFFF) never has its header
emitted, because 0xFFFF is not a multiple of 16. -/
theorem C1_region_header_emission (buf : Nat → Nat) :
    (mvShapes ⟨buf, true⟩).filterMap headerIndexOf = [0, 1, 2, 3, 4, 5, 6, 7, 8, 9, 10] ∧
    headerAdjacencyOk (mvShapes ⟨buf, true⟩) = true := by
  rw [mvShapes_valid]
  exact ⟨mvShapeList_headerIndices, mvShapeList_adjacency⟩

/-- Claim C1 counterexample: the Region Table has 12 regions, but
rendering the Memory Viewer with a valid (all-zero) snapshot emits the
header of region index 11 ("IE Register", start 0xFFFF) zero times, not
exactly once. -/
theorem C1_counterexample :
    MEMORY_REGIONS.length = 12 ∧
    (mvShapes ⟨fun _ => 0, true⟩).count (MVShape.headerS 11) = 0 := by
  refine ⟨rfl, ?_⟩
  rw [mvShapes_valid, List.count_eq_zero]
  intro hmem
  have h11 : 11 ∈ mvShapeList.filterMap headerIndexOf :=
    List.mem_filterMap.mpr ⟨MVShape.headerS 11, hmem, rfl⟩
  rw [mvShapeList_headerIndices] at h11
  exact absurd h11 (by decide)


end GBDebug

namespace GBDebug

/-- Claim C2 counterexample: in a reachable open debugger state, `Render()`
does not dispatch to the four panels CPU State, Flags, Memory Viewer,
Control; the Control panel is never dispatched at all. -/
theorem C2_counterexample :
    ((GBDebugger.init.Open true).2.is_open = true) ∧
    panelsDispatched (GBDebugger.init.Open true).2 ≠
      [PanelId.cpuStatePanel, PanelId.flagsPanel, PanelId.memoryViewerPanel,
       PanelId.controlPanel] ∧
    PanelId.controlPanel ∉ panelsDispatched (GBDebugger.init.Open true).2 := by
  refine ⟨rfl, ?_, ?_⟩ <;> decide

/-- Claim C2 (amended): whenever the debugger is open, every `Render()`
call dispatches to exactly the three panels CPU State, Flags, Memory
Viewer, in that fixed order; the coordinator owns no Control panel and
never dispatches one. -/
theorem C2_render_dispatch (s : GBDebugger) (h : s.is_open = true) :
    panelsDispatched s =
      [PanelId.cpuStatePanel, PanelId.flagsPanel, PanelId.memoryViewerPanel] := by
  unfold panelsDispatched GBDebugger.Render
  rw [h]
  cases s.sdl_initialized <;> rfl

/-- Witness for C2: the three-panel dispatch list at a concrete open
state. -/
theorem C2_render_dispatch_witness :
    panelsDispatched (GBDebugger.init.Open true).2 =
      [PanelId.cpuStatePanel, PanelId.flagsPanel, PanelId.memoryViewerPanel] :=
  C2_render_dispatch (GBDebugger.init.Open true).2 rfl

/-- Claim C3: `UpdateMemory` with a null buffer or a size other than 65536
returns failure and leaves the debugger state — snapshot bytes and
validity flag included — completely unchanged; with a non-null buffer and
size exactly 65536 it returns success, the stored snapshot equals the
input byte-for-byte, and validity becomes true. -/
theorem C3_UpdateMemory_spec (s : GBDebugger) :
    (∀ size : Nat, s.UpdateMemory none size = (false, s)) ∧
    (∀ (b : Nat → Nat) (size : Nat), size ≠ 65536 →
      s.UpdateMemory (some b) size = (false, s)) ∧
    (∀ b : Nat → Nat,
      (s.UpdateMemory (some b) 65536).1 = true ∧
      (s.UpdateMemory (some b) 65536).2.memory_state.is_valid = true ∧
      ∀ i, i < 65536 → (s.UpdateMemory (some b) 65536).2.memory_state.Read i = b i) := by
  refine ⟨fun _ => rfl, fun b size hs => ?_, fun b => ⟨?_, rfl, fun i hi => ?_⟩⟩
  · simp only [GBDebugger.UpdateMemory]
    rw [if_pos hs]
  · rfl
  · show (⟨fun j => b j, true⟩ : MemoryState).Read i = b i
    unfold MemoryState.Read
    rw [Nat.mod_eq_of_lt hi]

/-- Witness for C3: the three behaviors at concrete inputs. -/
theorem C3_UpdateMemory_spec_witness :
    (GBDebugger.init.UpdateMemory none 65536 = (false, GBDebugger.init)) ∧
    (GBDebugger.init.UpdateMemory (some fun _ => 171) 100 = (false, GBDebugger.init)) ∧
    ((GBDebugger.init.UpdateMemory (some fun _ => 171) 65536).2.memory_state.Read 4660 = 171) :=
  ⟨(C3_UpdateMemory_spec GBDebugger.init).1 65536,
   (C3_UpdateMemory_spec GBDebugger.init).2.1 (fun _ => 171) 100 (by decide),
   ((C3_UpdateMemory_spec GBDebugger.init).2.2 (fun _ => 171)).2.2 4660 (by decide)⟩

/-- Claim C4: the Region Table has exactly 12 entries, is sorted by
ascending start address, is contiguous with no gaps and no overlaps
(`end + 1` of each entry equals the next entry's `start`), begins at
0x0000 and ends at 0xFFFF, covering the full 16-bit address space. -/
theorem C4_region_table :
    MEMORY_REGIONS.length = 12 ∧
    (∀ i, i < 11 →
      (MEMORY_REGIONS.getD i default).start < (MEMORY_REGIONS.getD (i + 1) default).start ∧
      (MEMORY_REGIONS.getD i default).endAddr + 1 = (MEMORY_REGIONS.getD (i + 1) default).start) ∧
    (MEMORY_REGIONS.getD 0 default).start = 0x0000 ∧
    (MEMORY_REGIONS.getD 11 default).endAddr = 0xFFFF := by
  refine ⟨rfl, ?_, rfl, rfl⟩
  decide

/-- Witness for C4: contiguity at the first pair of regions. -/
theorem C4_region_table_witness :
    (0 < 11) ∧
    (MEMORY_REGIONS.getD 0 default).endAddr + 1 = (MEMORY_REGIONS.getD 1 default).start :=
  ⟨by decide, (C4_region_table.2.1 0 (by decide)).2⟩


end GBDebug

namespace GBDebug

theorem and_two_pow_bne (a k : Nat) : ((a &&& 2 ^ k) != 0) = a.testBit k := by
  rw [Nat.and_two_pow]
  cases h : a.testBit k <;> simp [h]

theorem testBit_and_255 (a k : Nat) (hk : k < 8) : (a &&& 255).testBit k = a.testBit k := by
  rw [Nat.testBit_and]
  have h255 : (255 : Nat).testBit k = true := by
    interval_cases k <;> decide
  rw [h255, Bool.and_true]

theorem testBit_congr_div16 {a b : Nat} (h : a / 16 = b / 16) {k : Nat} (hk : 4 ≤ k) :
    a.testBit k = b.testBit k := by
  rw [Nat.testBit_to_div_mod, Nat.testBit_to_div_mod]
  have e : ∀ x : Nat, x / 2 ^ k = x / 16 / 2 ^ (k - 4) := by
    intro x
    rw [Nat.div_div_eq_div_mul]
    congr 1
    rw [show (16 : Nat) = 2 ^ 4 from rfl, ← pow_add]
    congr 1
    omega
  rw [e a, e b, h]

theorem GetZFlag_testBit (c : CPUState) : c.GetZFlag = c.af.testBit 7 :=
  and_two_pow_bne c.af 7

theorem GetNFlag_testBit (c : CPUState) : c.GetNFlag = c.af.testBit 6 :=
  and_two_pow_bne c.af 6

theorem GetHFlag_testBit (c : CPUState) : c.GetHFlag = c.af.testBit 5 :=
  and_two_pow_bne c.af 5

theorem GetCFlag_testBit (c : CPUState) : c.GetCFlag = c.af.testBit 4 :=
  and_two_pow_bne c.af 4

/-- Claim C5: for every 16-bit AF value, the four flag accessors return
exactly the bits of `af & 0xFF` at positions 7, 6, 5 and 4, and are
independent of bits 0-3 of the flag byte (two AF values with the same
`af / 16` yield identical flags). -/
theorem C5_flag_accessors (c : CPUState) (h : c.af < 65536) :
    (c.GetZFlag = (c.af &&& 0xFF).testBit 7 ∧
     c.GetNFlag = (c.af &&& 0xFF).testBit 6 ∧
     c.GetHFlag = (c.af &&& 0xFF).testBit 5 ∧
     c.GetCFlag = (c.af &&& 0xFF).testBit 4) ∧
    ∀ c' : CPUState, c.af / 16 = c'.af / 16 →
      c.GetZFlag = c'.GetZFlag ∧ c.GetNFlag = c'.GetNFlag ∧
      c.GetHFlag = c'.GetHFlag ∧ c.GetCFlag = c'.GetCFlag := by
  constructor
  · exact ⟨by rw [GetZFlag_testBit, testBit_and_255 _ 7 (by omega)],
           by rw [GetNFlag_testBit, testBit_and_255 _ 6 (by omega)],
           by rw [GetHFlag_testBit, testBit_and_255 _ 5 (by omega)],
           by rw [GetCFlag_testBit, testBit_and_255 _ 4 (by omega)]⟩
  · intro c' hdiv
    exact ⟨by rw [GetZFlag_testBit, GetZFlag_testBit, testBit_congr_div16 hdiv (by omega)],
           by rw [GetNFlag_testBit, GetNFlag_testBit, testBit_congr_div16 hdiv (by omega)],
           by rw [GetHFlag_testBit, GetHFlag_testBit, testBit_congr_div16 hdiv (by omega)],
           by rw [GetCFlag_testBit, GetCFlag_testBit, testBit_congr_div16 hdiv (by omega)]⟩

/-- Witness for C5 at AF = 0x01B5 (and 0x01B7 for bit-0-3 independence). -/
theorem C5_flag_accessors_witness :
    ((⟨0, 0, 0, 0x01B5, 0, 0, 0, false⟩ : CPUState).af < 65536) ∧
    ((⟨0, 0, 0, 0x01B5, 0, 0, 0, false⟩ : CPUState).GetZFlag
      = ((⟨0, 0, 0, 0x01B5, 0, 0, 0, false⟩ : CPUState).af &&& 0xFF).testBit 7) ∧
    ((⟨0, 0, 0, 0x01B5, 0, 0, 0, false⟩ : CPUState).GetCFlag
      = (⟨0, 0, 0, 0x01B7, 0, 0, 0, false⟩ : CPUState).GetCFlag) :=
  ⟨by decide,
   ((C5_flag_accessors ⟨0, 0, 0, 0x01B5, 0, 0, 0, false⟩ (by decide)).1).1,
   (((C5_flag_accessors ⟨0, 0, 0, 0x01B5, 0, 0, 0, false⟩ (by decide)).2
      ⟨0, 0, 0, 0x01B7, 0, 0, 0, false⟩ (by decide))).2.2.2⟩

theorem hiLo_eq (v : Nat) (h : v < 65536) :
    ((v >>> 8) &&& 0xFF) * 256 + (v &&& 0xFF) = v := by
  rw [Nat.shiftRight_eq_div_pow,
      show (0xFF : Nat) = 2 ^ 8 - 1 from rfl,
      Nat.and_pow_two_sub_one_eq_mod, Nat.and_pow_two_sub_one_eq_mod,
      show (2 : Nat) ^ 8 = 256 from rfl]
  omega

/-- Claim C8: for every 16-bit value of each register pair, the high-byte
accessor times 256 plus the low-byte accessor reconstructs the pair. -/
theorem C8_register_pairs (c : CPUState)
    (haf : c.af < 65536) (hbc : c.bc < 65536) (hde : c.de < 65536) (hhl : c.hl < 65536) :
    c.GetA * 256 + c.GetF = c.af ∧ c.GetB * 256 + c.GetC = c.bc ∧
    c.GetD * 256 + c.GetE = c.de ∧ c.GetH * 256 + c.GetL = c.hl :=
  ⟨hiLo_eq c.af haf, hiLo_eq c.bc hbc, hiLo_eq c.de hde, hiLo_eq c.hl hhl⟩

/-- Witness for C8 at the GameBoy boot register values. -/
theorem C8_register_pairs_witness :
    (⟨12345, 0x0150, 0xFFFE, 0x01B0, 0x0013, 0x00D8, 0x014D, true⟩ : CPUState).GetB * 256 +
      (⟨12345, 0x0150, 0xFFFE, 0x01B0, 0x0013, 0x00D8, 0x014D, true⟩ : CPUState).GetC =
      (⟨12345, 0x0150, 0xFFFE, 0x01B0, 0x0013, 0x00D8, 0x014D, true⟩ : CPUState).bc :=
  (C8_register_pairs ⟨12345, 0x0150, 0xFFFE, 0x01B0, 0x0013, 0x00D8, 0x014D, true⟩
    (by decide) (by decide) (by decide) (by decide)).2.1

/-- Claim C6: `CycleSpeedUp` and `CycleSpeedDown` saturate at the bounds
of the speed index (no wraparound), and `SetSpeedIndex` with any index
outside [0,6] leaves the panel unchanged. -/
theorem C6_speed_saturation (p : ControlPanel) :
    (p.speed_index = 6 → (p.CycleSpeedUp).speed_index = 6) ∧
    (p.speed_index = 0 → (p.CycleSpeedDown).speed_index = 0) ∧
    (∀ index : Int, index < 0 ∨ 6 < index → p.SetSpeedIndex index = p) := by
  refine ⟨fun h => ?_, fun h => ?_, fun index hidx => ?_⟩
  · unfold ControlPanel.CycleSpeedUp
    rw [if_neg (by rw [h]; decide)]
    exact h
  · unfold ControlPanel.CycleSpeedDown
    rw [if_neg (by rw [h]; decide)]
    exact h
  · unfold ControlPanel.SetSpeedIndex
    rw [if_neg (by simp only [SPEED_COUNT]; rcases hidx with h | h <;> omega)]

/-- Witness for C6 at indices 6, 0 and the out-of-range input 7. -/
theorem C6_speed_saturation_witness :
    ((⟨true, false, false, false, 6⟩ : ControlPanel).CycleSpeedUp).speed_index = 6 ∧
    ((⟨true, false, false, false, 0⟩ : ControlPanel).CycleSpeedDown).speed_index = 0 ∧
    (⟨true, false, false, false, 3⟩ : ControlPanel).SetSpeedIndex 7 =
      ⟨true, false, false, false, 3⟩ :=
  ⟨(C6_speed_saturation ⟨true, false, false, false, 6⟩).1 rfl,
   (C6_speed_saturation ⟨true, false, false, false, 0⟩).2.1 rfl,
   (C6_speed_saturation ⟨true, false, false, false, 3⟩).2.2 7 (Or.inr (by decide))⟩


end GBDebug

namespace GBDebug

theorem renderRunStop_exit (p : ControlPanel) (b : Bool) :
    (p.renderRunStop b).exit_requested = p.exit_requested := by
  unfold ControlPanel.renderRunStop
  split_ifs <;> rfl

theorem renderStepButton_exit (p : ControlPanel) (b : Bool) :
    (p.renderStepButton b).exit_requested = p.exit_requested := by
  unfold ControlPanel.renderStepButton
  split_ifs <;> rfl

theorem renderSpeedCombo_exit (p : ControlPanel) (sel : Option (Fin 7)) :
    (p.renderSpeedCombo sel).exit_requested = p.exit_requested := by
  unfold ControlPanel.renderSpeedCombo
  cases sel <;> rfl

theorem renderExitButton_exit (p : ControlPanel) (b : Bool)
    (h : p.exit_requested = true) : (p.renderExitButton b).exit_requested = true := by
  unfold ControlPanel.renderExitButton
  split_ifs <;> simp [h]

theorem Render_exit_monotonic (p : ControlPanel) (inp : ControlRenderInput)
    (h : p.exit_requested = true) : (p.Render inp).exit_requested = true := by
  unfold ControlPanel.Render
  split_ifs with h1
  · exact h
  · apply renderExitButton_exit
    rw [renderSpeedCombo_exit, renderStepButton_exit, renderRunStop_exit]
    exact h

theorem step_preserves_exit (p : ControlPanel) (op : ControlOp)
    (h : p.exit_requested = true) : (p.step op).exit_requested = true := by
  cases op with
  | render inp => exact Render_exit_monotonic p inp h
  | setRunning b => exact h
  | toggleRunning => exact h
  | clearStepRequest => exact h
  | cycleSpeedUp =>
    show (p.CycleSpeedUp).exit_requested = true
    unfold ControlPanel.CycleSpeedUp
    split_ifs <;> exact h
  | cycleSpeedDown =>
    show (p.CycleSpeedDown).exit_requested = true
    unfold ControlPanel.CycleSpeedDown
    split_ifs <;> exact h
  | setSpeedIndex index =>
    show (p.SetSpeedIndex index).exit_requested = true
    unfold ControlPanel.SetSpeedIndex
    split_ifs <;> exact h
  | setVisible b => exact h

/-- Claim C7: the exit-request flag is monotonic — once set, it remains
set after every subsequent sequence of ControlPanel operations (Render
with any input, SetRunning, ToggleRunning, ClearStepRequest, the speed
operations, SetVisible); no operation can unset it. -/
theorem C7_exit_monotonic (p : ControlPanel) (h : p.exit_requested = true) :
    ∀ ops : List ControlOp, (p.run ops).exit_requested = true := by
  intro ops
  induction ops generalizing p with
  | nil => exact h
  | cons op rest ih => exact ih (p.step op) (step_preserves_exit p op h)

/-- Witness for C7: a panel with the exit flag set keeps it through a
concrete sequence of every other operation. -/
theorem C7_exit_monotonic_witness :
    ((⟨true, false, false, true, 3⟩ : ControlPanel).run
      [ControlOp.setRunning true, ControlOp.toggleRunning, ControlOp.clearStepRequest,
       ControlOp.cycleSpeedUp, ControlOp.cycleSpeedDown, ControlOp.setSpeedIndex 2,
       ControlOp.setVisible false, ControlOp.render ⟨true, true, some 3, false⟩,
       ControlOp.setVisible true, ControlOp.render ⟨false, false, none, false⟩]).exit_requested
      = true :=
  C7_exit_monotonic ⟨true, false, false, true, 3⟩ rfl _



theorem renderRunStop_speed (p : ControlPanel) (b : Bool) :
    (p.renderRunStop b).speed_index = p.speed_index := by
  unfold ControlPanel.renderRunStop
  split_ifs <;> rfl

theorem renderStepButton_speed (p : ControlPanel) (b : Bool) :
    (p.renderStepButton b).speed_index = p.speed_index := by
  unfold ControlPanel.renderStepButton
  split_ifs <;> rfl

theorem renderExitButton_speed (p : ControlPanel) (b : Bool) :
    (p.renderExitButton b).speed_index = p.speed_index := by
  unfold ControlPanel.renderExitButton
  split_ifs <;> rfl

theorem renderSpeedCombo_range (p : ControlPanel) (sel : Option (Fin 7))
    (h0 : 0 ≤ p.speed_index) (h6 : p.speed_index ≤ 6) :
    0 ≤ (p.renderSpeedCombo sel).speed_index ∧ (p.renderSpeedCombo sel).speed_index ≤ 6 := by
  unfold ControlPanel.renderSpeedCombo
  cases sel with
  | none => exact ⟨h0, h6⟩
  | some i =>
    have := i.isLt
    constructor <;> simp <;> omega

theorem step_speed_range (p : ControlPanel) (op : ControlOp)
    (h0 : 0 ≤ p.speed_index) (h6 : p.speed_index ≤ 6) :
    0 ≤ (p.step op).speed_index ∧ (p.step op).speed_index ≤ 6 := by
  cases op with
  | render inp =>
    show 0 ≤ (p.Render inp).speed_index ∧ (p.Render inp).speed_index ≤ 6
    unfold ControlPanel.Render
    split_ifs
    · exact ⟨h0, h6⟩
    · rw [renderExitButton_speed]
      apply renderSpeedCombo_range
      · rw [renderStepButton_speed, renderRunStop_speed]; exact h0
      · rw [renderStepButton_speed, renderRunStop_speed]; exact h6
  | setRunning b => exact ⟨h0, h6⟩
  | toggleRunning => exact ⟨h0, h6⟩
  | clearStepRequest => exact ⟨h0, h6⟩
  | cycleSpeedUp =>
    show 0 ≤ (p.CycleSpeedUp).speed_index ∧ (p.CycleSpeedUp).speed_index ≤ 6
    unfold ControlPanel.CycleSpeedUp
    split_ifs with hc
    · simp only [SPEED_COUNT] at hc
      constructor <;> simp <;> omega
    · exact ⟨h0, h6⟩
  | cycleSpeedDown =>
    show 0 ≤ (p.CycleSpeedDown).speed_index ∧ (p.CycleSpeedDown).speed_index ≤ 6
    unfold ControlPanel.CycleSpeedDown
    split_ifs with hc
    · constructor <;> simp <;> omega
    · exact ⟨h0, h6⟩
  | setSpeedIndex index =>
    show 0 ≤ (p.SetSpeedIndex index).speed_index ∧ (p.SetSpeedIndex index).speed_index ≤ 6
    unfold ControlPanel.SetSpeedIndex
    split_ifs with hc
    · simp only [SPEED_COUNT] at hc
      constructor <;> simp <;> omega
    · exact ⟨h0, h6⟩
  | setVisible b => exact ⟨h0, h6⟩

theorem run_speed_range (ops : List ControlOp) :
    ∀ p : ControlPanel, 0 ≤ p.speed_index → p.speed_index ≤ 6 →
      0 ≤ (p.run ops).speed_index ∧ (p.run ops).speed_index ≤ 6 := by
  induction ops with
  | nil => exact fun p h0 h6 => ⟨h0, h6⟩
  | cons op rest ih =>
    intro p h0 h6
    obtain ⟨a, b⟩ := step_speed_range p op h0 h6
    exact ih (p.step op) a b

/-- Claim C9: starting from construction, every sequence of ControlPanel
operations keeps the speed index in [0,6]; consequently the array lookup
in GetSpeedMultiplier is in bounds and returns one of the seven
multipliers 0.125, 0.25, 0.5, 1.0, 2.0, 4.0, 8.0. -/
theorem C9_speed_multiplier_safe (ops : List ControlOp) :
    0 ≤ (ControlPanel.init.run ops).speed_index ∧
    (ControlPanel.init.run ops).speed_index ≤ 6 ∧
    ∃ m : Rat, (ControlPanel.init.run ops).GetSpeedMultiplier = some m ∧
      m ∈ speedMultipliers := by
  obtain ⟨h0, h6⟩ := run_speed_range ops ControlPanel.init (by decide) (by decide)
  refine ⟨h0, h6, ?_⟩
  unfold ControlPanel.GetSpeedMultiplier
  rw [if_pos h0]
  have hlt : (ControlPanel.init.run ops).speed_index.toNat < speedMultipliers.length := by
    simp only [speedMultipliers, List.length_cons, List.length_nil]
    omega
  exact ⟨speedMultipliers[(ControlPanel.init.run ops).speed_index.toNat],
    List.getElem?_eq_getElem hlt, List.getElem_mem hlt⟩



theorem Open_memory (s : GBDebugger) (ok : Bool) :
    (s.Open ok).2.memory_state = s.memory_state := by
  unfold GBDebugger.Open
  split_ifs <;> rfl

theorem Close_memory (s : GBDebugger) : s.Close.memory_state = s.memory_state := by
  unfold GBDebugger.Close
  split_ifs <;> rfl

theorem InitSDL_memory (s : GBDebugger) (a b c : Bool) :
    (s.InitSDL a b c).2.memory_state = s.memory_state := by
  unfold GBDebugger.InitSDL
  have hopen2 := Open_memory s a
  cases hso : s.is_open <;> simp only [hso, Bool.not_true, Bool.not_false, if_true, if_false] <;>
    split_ifs <;> simp_all

theorem ProcessSDLEvent_memory (s : GBDebugger) (a b : Bool) :
    (s.ProcessSDLEvent a b).memory_state = s.memory_state := by
  unfold GBDebugger.ProcessSDLEvent
  split_ifs <;> rfl

theorem gbstep_preserves_valid (s : GBDebugger) (op : GBOp)
    (h : s.memory_state.is_valid = true) : (s.step op).memory_state.is_valid = true := by
  cases op with
  | openCall ok =>
    show ((s.Open ok).2).memory_state.is_valid = true
    rw [Open_memory]; exact h
  | closeCall =>
    show s.Close.memory_state.is_valid = true
    rw [Close_memory]; exact h
  | updateCPU cycle pc sp af bc de hl ime => exact h
  | updateMemory buffer size =>
    show ((s.UpdateMemory buffer size).2).memory_state.is_valid = true
    cases buffer with
    | none => exact h
    | some b =>
      simp only [GBDebugger.UpdateMemory]
      split_ifs
      · exact h
      · rfl
  | render => exact h
  | initSDL a b c =>
    show ((s.InitSDL a b c).2).memory_state.is_valid = true
    rw [InitSDL_memory]; exact h
  | processSDLEvent a b =>
    show (s.ProcessSDLEvent a b).memory_state.is_valid = true
    rw [ProcessSDLEvent_memory]; exact h
  | beginFrame => exact h
  | endFrame => exact h

/-- Claim C10: the memory snapshot's validity flag is monotone — once an
UpdateMemory call has succeeded, is_valid stays true after every
subsequent sequence of debugger operations (including failed UpdateMemory
calls, UpdateCPU, Render, Open, Close, InitSDL, event processing and
frame calls). -/
theorem C10_validity_monotonic (s : GBDebugger) (h : s.memory_state.is_valid = true) :
    ∀ ops : List GBOp, (s.run ops).memory_state.is_valid = true := by
  intro ops
  induction ops generalizing s with
  | nil => exact h
  | cons op rest ih => exact ih (s.step op) (gbstep_preserves_valid s op h)

/-- Witness for C10: after a successful UpdateMemory, validity survives a
concrete sequence containing a failed update and every other operation. -/
theorem C10_validity_monotonic_witness :
    (((GBDebugger.init.UpdateMemory (some fun _ => 0) 65536).2.run
      [GBOp.updateMemory none 65536, GBOp.updateMemory (some fun _ => 1) 100,
       GBOp.openCall true, GBOp.render,
       GBOp.updateCPU 1 2 3 4 5 6 7 true, GBOp.initSDL true true true,
       GBOp.processSDLEvent true true, GBOp.beginFrame, GBOp.endFrame,
       GBOp.closeCall]).memory_state.is_valid) = true :=
  C10_validity_monotonic (GBDebugger.init.UpdateMemory (some fun _ => 0) 65536).2 rfl _


end GBDebug
